import Mathlib

/-!
Verification of the context registry and lifecycle manager of AppleSGLX
(`apple_glx_context.c`), shallowly embedded in Lean 4.

Embedding conventions:
* A `struct apple_glx_drawable` is abstracted to the three fields this file
  reads from it (`drawable`, `surface_id`, `uid`); the external drawable
  manager owns everything else.
* A `struct apple_glx_context` record keeps the fields of the C struct; the
  intrusive `previous`/`next` links are represented by membership of the
  context in a Lean list standing for the registry (`context_list`), with
  unlink modeled as erasure of the node; `id` stands for the node's address,
  giving it identity inside the list.
* Calls into external collaborators (the CGL factory `apple_cgl.*`, the
  drawable manager, `xp_attach_gl_context`, `XAppleDRIDestroySurface`) and
  the mutex operations are recorded as events in a trace, in the order the
  C statements execute them; their outcomes are supplied by an environment
  record, one field per fallible call.
* `abort()` terminates the process: the embedding stops the trace with an
  `abortEvent` and marks the result `aborted`; no later statement runs.
-/

/-- The slice of `struct apple_glx_drawable` that `apple_glx_context.c`
reads: the X11 drawable id, the surface id and the surface owner uid. -/
structure Drawable where
  drawable : Nat
  surface_id : Nat
  uid : Nat
deriving Repr, DecidableEq

/-- `struct apple_glx_context`: opaque native handles are numbers, the
attached drawable is `none` when the C pointer is NULL. `id` stands for
the node's address (its identity in the registry list). -/
structure AppleGlxContext where
  id : Nat
  context_obj : Nat
  pixel_format_obj : Nat
  drawable : Option Drawable
  thread_id : Nat
  screen : Nat
  double_buffered : Bool
deriving Repr, DecidableEq

/-- One observable step: a mutex operation, a registry unlink, a scan step of
the reverse lookup, or a call into an external collaborator, with the
arguments the C code passes. -/
inductive Event where
  | lockList : Event
  | unlockList : Event
  | unlinkCtx (id : Nat) : Event
  | scanCompare (id : Nat) : Event
  | cglSetCurrentContext (obj : Option Nat) : Event
  | cglClearDrawable (obj : Nat) : Event
  | findDrawable (x : Nat) : Event
  | createDrawable (x : Nat) : Event
  | releaseDrawable (d : Drawable) : Event
  | destroyDrawable (d : Drawable) : Event
  | destroySurface (screen : Nat) (x : Nat) : Event
  | xpAttachGlContext (obj : Nat) (sid : Nat) : Event
  | cglDestroyPixelFormat (pf : Nat) : Event
  | cglDestroyContext (obj : Nat) : Event
  | garbageCollect : Event
  | abortEvent : Event
deriving Repr, DecidableEq

/-- Outcomes of the external calls `apple_glx_make_current_context` makes:
whether `apple_cgl.clear_drawable` / `apple_cgl.set_current_context` fail,
what `apple_glx_find_drawable` / `apple_glx_create_drawable` return
(`none` = NULL / error), and the `xp_attach_gl_context` error code. -/
structure MakeCurrentEnv where
  clear_drawable_err : Bool
  set_current_err : Bool
  find_result : Option Drawable
  create_result : Option Drawable
  attach_err : Nat
deriving Repr, DecidableEq

/-- Result of `apple_glx_make_current_context`: the returned error flag, the
context record after the call, and the trace of external calls made. -/
structure MakeCurrentResult where
  err : Bool
  ctx : AppleGlxContext
  trace : List Event
deriving Repr, DecidableEq

/-- Tail of `apple_glx_make_current_context` from `ac->drawable = agd;`
on: the drawable pointer is stored, then `xp_attach_gl_context` and
`apple_cgl.set_current_context` run, then `ac->thread_id = pthread_self()`.
`ac1` is the context after the old drawable was released. -/
def make_current_after_resolve (env : MakeCurrentEnv) (tid : Nat)
    (ac1 : AppleGlxContext) (agd : Drawable) (evs : List Event) :
    MakeCurrentResult :=
  let ac2 := { ac1 with drawable := some agd }
  let evs2 := evs ++ [Event.xpAttachGlContext ac1.context_obj agd.surface_id]
  if env.attach_err ≠ 0 then
    ⟨true, ac2, evs2⟩
  else
    let evs3 := evs2 ++ [Event.cglSetCurrentContext (some ac1.context_obj)]
    if env.set_current_err then
      ⟨true, ac2, evs3⟩
    else
      ⟨false, { ac2 with thread_id := tid }, evs3⟩

/-- `apple_glx_make_current_context(dpy, ptr, drawable)`. `tid` is the value
of `pthread_self()`; `drawable = none` models `None == drawable`. The
`None` branch clears the drawable and sets the context current; the other
branch releases any old drawable, resolves the target through the drawable
manager, attaches and makes current. -/
def apple_glx_make_current_context (env : MakeCurrentEnv) (tid : Nat)
    (ac : AppleGlxContext) (drawable : Option Nat) : MakeCurrentResult :=
  match drawable with
  | none =>
    if env.clear_drawable_err then
      ⟨true, ac, [Event.cglClearDrawable ac.context_obj]⟩
    else if env.set_current_err then
      ⟨true, ac, [Event.cglClearDrawable ac.context_obj,
                  Event.cglSetCurrentContext (some ac.context_obj)]⟩
    else
      ⟨false, ac, [Event.cglClearDrawable ac.context_obj,
                   Event.cglSetCurrentContext (some ac.context_obj)]⟩
  | some d =>
    let (ac1, ev1) :=
      match ac.drawable with
      | some old => ({ ac with drawable := none }, [Event.releaseDrawable old])
      | none => (ac, ([] : List Event))
    let evFind := ev1 ++ [Event.findDrawable d]
    match env.find_result with
    | some agd => make_current_after_resolve env tid ac1 agd evFind
    | none =>
      match env.create_result with
      | none => ⟨true, ac1, evFind ++ [Event.createDrawable d]⟩
      | some agd =>
        make_current_after_resolve env tid ac1 agd
          (evFind ++ [Event.createDrawable d])

/-- Outcomes of the external calls `apple_glx_destroy_context` makes:
whether `apple_cgl.set_current_context(NULL)` / `apple_cgl.clear_drawable`
fail (both abort), whether `apple_glx_destroy_drawable` reports that the
last reference was released, and whether `apple_cgl.destroy_pixel_format`
/ `apple_cgl.destroy_context` fail (both abort). -/
structure DestroyEnv where
  set_current_fail : Bool
  clear_drawable_fail : Bool
  destroy_drawable_last : Bool
  destroy_pixel_format_fail : Bool
  destroy_context_fail : Bool
deriving Repr, DecidableEq

/-- Result of `apple_glx_destroy_context`: the trace of external calls, the
registry (`context_list`) after the call, the value stored back through the
caller's handle (`*ptr`), and whether the process aborted. On abort the
handle keeps its old value: the final `*ptr = NULL` never runs. -/
structure DestroyResult where
  trace : List Event
  registry : List AppleGlxContext
  handle : Option AppleGlxContext
  aborted : Bool
deriving Repr, DecidableEq

/-- `apple_glx_destroy_context(ptr, dpy)`. `ptr` is the caller's stored
context pointer `*ptr` (`none` = NULL). The unlink of `ac` from the
doubly-linked `context_list` via its own `previous`/`next` links is modeled
as erasing the node with `ac`'s id from the registry list; it happens
between `lock_context_list()` and `unlock_context_list()`, and every
teardown call follows the unlock. -/
def apple_glx_destroy_context (env : DestroyEnv)
    (registry : List AppleGlxContext) (ptr : Option AppleGlxContext) :
    DestroyResult :=
  match ptr with
  | none => ⟨[], registry, none, false⟩
  | some ac =>
    if env.set_current_fail then
      ⟨[Event.cglSetCurrentContext none, Event.abortEvent],
       registry, some ac, true⟩
    else
      let ev1 : List Event :=
        [Event.cglSetCurrentContext none,
         Event.lockList, Event.unlinkCtx ac.id, Event.unlockList]
      let reg1 := registry.eraseP (fun c => c.id == ac.id)
      if env.clear_drawable_fail then
        ⟨ev1 ++ [Event.cglClearDrawable ac.context_obj, Event.abortEvent],
         reg1, some ac, true⟩
      else
        let ev2 := ev1 ++ [Event.cglClearDrawable ac.context_obj]
        let ev3 := ev2 ++
          (match ac.drawable with
           | none => []
           | some d =>
             if env.destroy_drawable_last then
               [Event.destroyDrawable d, Event.destroySurface ac.screen d.drawable]
             else
               [Event.destroyDrawable d])
        if env.destroy_pixel_format_fail then
          ⟨ev3 ++ [Event.cglDestroyPixelFormat ac.pixel_format_obj, Event.abortEvent],
           reg1, some ac, true⟩
        else
          let ev4 := ev3 ++ [Event.cglDestroyPixelFormat ac.pixel_format_obj]
          if env.destroy_context_fail then
            ⟨ev4 ++ [Event.cglDestroyContext ac.context_obj, Event.abortEvent],
             reg1, some ac, true⟩
          else
            ⟨ev4 ++ [Event.cglDestroyContext ac.context_obj, Event.garbageCollect],
             reg1, none, false⟩

/-- The loop of `apple_glx_get_surface_from_uid`: walk `context_list`, and
at the first context with a non-NULL drawable whose `uid` matches, return
its `surface_id` and `context_obj` (`some` = the C function returns
`false` after writing the out-parameters; `none` = the loop falls through
and the C function returns `true`). One `scanCompare` event per visited
node records that the scan touches the list. -/
def get_surface_scan (uid : Nat) :
    List AppleGlxContext → Option (Nat × Nat) × List Event
  | [] => (none, [])
  | ac :: rest =>
    match ac.drawable with
    | some d =>
      if d.uid == uid then
        (some (d.surface_id, ac.context_obj), [Event.scanCompare ac.id])
      else
        ((get_surface_scan uid rest).1,
         Event.scanCompare ac.id :: (get_surface_scan uid rest).2)
    | none =>
      ((get_surface_scan uid rest).1,
       Event.scanCompare ac.id :: (get_surface_scan uid rest).2)

/-- `apple_glx_get_surface_from_uid(uid, sid, contextobj)`. The whole scan
runs between `lock_context_list()` and `unlock_context_list()`; both the
match return and the fall-through return unlock first. -/
def apple_glx_get_surface_from_uid (registry : List AppleGlxContext)
    (uid : Nat) : Option (Nat × Nat) × List Event :=
  ((get_surface_scan uid registry).1,
   Event.lockList ::
     ((get_surface_scan uid registry).2 ++ [Event.unlockList]))

/-- Modelled from the spec: `find_by_surface_owner(uid)` as §4.1 words it —
an O(n) scan over all live contexts returning the first context whose
attached drawable's owner id equals `uid`, as `(surface_id,
native_context)`, or not-found. Used to compare the code's scan against
the spec's description. -/
def find_by_surface_owner (registry : List AppleGlxContext) (uid : Nat) :
    Option (Nat × Nat) :=
  registry.findSome? fun ac =>
    ac.drawable.bind fun d =>
      if d.uid = uid then some (d.surface_id, ac.context_obj) else none

/-- Is an event one of the teardown calls named by the destroy sequence:
drawable destroy, window-system surface teardown, pixel-format destroy,
native-context destroy. -/
def eventIsTeardown : Event → Bool
  | Event.destroyDrawable _ => true
  | Event.destroySurface _ _ => true
  | Event.cglDestroyPixelFormat _ => true
  | Event.cglDestroyContext _ => true
  | _ => false

/-- Registry-lock depth after processing one event. -/
def lockStep (depth : Nat) : Event → Nat
  | Event.lockList => depth + 1
  | Event.unlockList => depth - 1
  | _ => depth

/-- Walk a trace with the registry-lock depth and check that every teardown
call happens at depth 0 (the lock is not held) and every registry unlink
happens at positive depth (the lock is held). -/
def lockDiscipline : List Event → Nat → Bool
  | [], _ => true
  | e :: rest, depth =>
    (match e with
     | Event.unlinkCtx _ => decide (0 < depth)
     | _ => !eventIsTeardown e || decide (depth = 0)) &&
    lockDiscipline rest (lockStep depth e)

/-- Does the trace unlink some context from the registry? -/
def hasUnlink (tr : List Event) : Bool :=
  tr.any fun e => match e with
    | Event.unlinkCtx _ => true
    | _ => false

/-- Number of window-system surface-teardown calls in a trace. -/
def countSurfaceDestroys (tr : List Event) : Nat :=
  (tr.filter fun e => match e with
    | Event.destroySurface _ _ => true
    | _ => false).length

/-- Is an event a drawable-reference release (`apple_glx_release_drawable`)? -/
def eventIsRelease : Event → Bool
  | Event.releaseDrawable _ => true
  | _ => false

/-! Concrete fixtures used by counterexamples and witnesses. -/

/-- A drawable record: X11 drawable 7, surface id 8, owner uid 9. -/
def agdW : Drawable := ⟨7, 8, 9⟩

/-- A context with no attached drawable. -/
def acW : AppleGlxContext := ⟨1, 2, 3, none, 4, 0, false⟩

/-- A context bound to `agdW`. -/
def acBound : AppleGlxContext := ⟨1, 2, 3, some agdW, 4, 0, false⟩

/-- A make-current environment where every external call succeeds and the
drawable manager finds `agdW`. -/
def envOkMC : MakeCurrentEnv := ⟨false, false, some agdW, none, 0⟩

/-- A make-current environment where `xp_attach_gl_context` returns 1. -/
def envAttachFail : MakeCurrentEnv := ⟨false, false, some agdW, none, 1⟩

/-- A make-current environment where `apple_cgl.set_current_context`
fails. -/
def envSetFail : MakeCurrentEnv := ⟨false, true, some agdW, none, 0⟩

/-- A destroy environment where every external call succeeds and the
drawable release reports the last reference. -/
def envOkD : DestroyEnv := ⟨false, false, true, false, false⟩

/-- C9: `apple_glx_destroy_context` on a handle whose stored context pointer
is NULL returns immediately: no event is emitted, the registry and the
handle are unchanged, and the process does not abort. -/
theorem destroy_null_noop (env : DestroyEnv)
    (registry : List AppleGlxContext) :
    apple_glx_destroy_context env registry none =
      ⟨[], registry, none, false⟩ := rfl

/-- C10: when `apple_glx_destroy_context` completes (does not abort) on a
non-NULL context, it stores NULL back through the caller's handle, so a
second call through that handle is a no-op. -/
theorem destroy_clears_handle (env env2 : DestroyEnv)
    (registry reg2 : List AppleGlxContext) (ac : AppleGlxContext)
    (h : (apple_glx_destroy_context env registry (some ac)).aborted = false) :
    (apple_glx_destroy_context env registry (some ac)).handle = none ∧
    apple_glx_destroy_context env2 reg2
        (apple_glx_destroy_context env registry (some ac)).handle =
      ⟨[], reg2, none, false⟩ := by
  rcases env with ⟨scf, cdf, ddl, dpf, dcf⟩
  cases scf <;> cases cdf <;> cases dpf <;> cases dcf <;>
    simp [apple_glx_destroy_context] at h ⊢

/-- Witness for C10 at a concrete input: the all-success destroy of `acW`
leaves a NULL handle and the second call is a no-op. -/
theorem destroy_clears_handle_witness :
    (apple_glx_destroy_context envOkD [acW] (some acW)).handle = none ∧
    apple_glx_destroy_context envOkD []
        (apple_glx_destroy_context envOkD [acW] (some acW)).handle =
      ⟨[], [], none, false⟩ :=
  destroy_clears_handle envOkD envOkD [acW] [] acW (by decide)

/-- C2 counterexample: with the drawable manager resolving `agdW` and
`xp_attach_gl_context` returning 1, make-current reports failure but the
context is NOT left with a NULL `drawable`: the code stores
`ac->drawable = agd` before the attach call, so `attached_drawable` is the
resolved drawable, contradicting the claim that the context is left
Unbound. -/
theorem make_current_attach_fail_cex :
    (apple_glx_make_current_context envAttachFail 5 acW (some 7)).err = true ∧
    (apple_glx_make_current_context envAttachFail 5 acW (some 7)).ctx.drawable
      = some agdW := by decide

/-- C2 amended: on a non-zero attach error code, make-current reports
failure, but the context is left with `drawable` already set to the
resolved drawable record (the old reference having been released), not
NULL. -/
theorem make_current_attach_fail_state (env : MakeCurrentEnv) (tid : Nat)
    (ac : AppleGlxContext) (d : Nat) (agd : Drawable)
    (hres : env.find_result = some agd ∨
      (env.find_result = none ∧ env.create_result = some agd))
    (herr : env.attach_err ≠ 0) :
    (apple_glx_make_current_context env tid ac (some d)).err = true ∧
    (apple_glx_make_current_context env tid ac (some d)).ctx.drawable
      = some agd := by
  rcases hd : ac.drawable with _ | old <;> rcases hres with h | ⟨h1, h2⟩
  · simp [apple_glx_make_current_context, make_current_after_resolve,
          hd, h, herr]
  · simp [apple_glx_make_current_context, make_current_after_resolve,
          hd, h1, h2, herr]
  · simp [apple_glx_make_current_context, make_current_after_resolve,
          hd, h, herr]
  · simp [apple_glx_make_current_context, make_current_after_resolve,
          hd, h1, h2, herr]

/-- Witness for the amended C2 at a concrete input. -/
theorem make_current_attach_fail_state_witness :
    (apple_glx_make_current_context envAttachFail 6 acBound (some 7)).err
      = true ∧
    (apple_glx_make_current_context envAttachFail 6 acBound (some 7)).ctx.drawable
      = some agdW :=
  make_current_attach_fail_state envAttachFail 6 acBound 7 agdW
    (Or.inl rfl) (by decide)

/-- C3 counterexample: a successful make-current with no drawable on a
context bound to `agdW` leaves `drawable` still equal to `agdW`, not NULL:
the `None == drawable` branch never clears `ac->drawable`. -/
theorem make_current_none_keeps_drawable_cex :
    (apple_glx_make_current_context envOkMC 5 acBound none).err = false ∧
    (apple_glx_make_current_context envOkMC 5 acBound none).ctx.drawable
      = some agdW := by decide

/-- C3 amended: a successful make-current with no target drawable clears
the native drawable association and sets the context current, but leaves
the context record entirely unchanged — in particular `drawable` keeps its
prior value, so a Bound context does not become Unbound. -/
theorem make_current_none_unchanged (env : MakeCurrentEnv) (tid : Nat)
    (ac : AppleGlxContext)
    (hc : env.clear_drawable_err = false)
    (hs : env.set_current_err = false) :
    (apple_glx_make_current_context env tid ac none).err = false ∧
    (apple_glx_make_current_context env tid ac none).ctx = ac := by
  simp [apple_glx_make_current_context, hc, hs]

/-- Witness for the amended C3 at a concrete input. -/
theorem make_current_none_unchanged_witness :
    (apple_glx_make_current_context envOkMC 6 acBound none).err = false ∧
    (apple_glx_make_current_context envOkMC 6 acBound none).ctx = acBound :=
  make_current_none_unchanged envOkMC 6 acBound rfl rfl

/-- C4 counterexample: a successful make-current with no target drawable
called from thread 5 leaves `thread_id` at its old value 4: the
`None == drawable` branch never updates `ac->thread_id`, contradicting the
claim that every successful make-current records the calling thread. -/
theorem make_current_none_thread_cex :
    (apple_glx_make_current_context envOkMC 5 acBound none).err = false ∧
    (apple_glx_make_current_context envOkMC 5 acBound none).ctx.thread_id
      ≠ 5 := by decide

/-- C4 amended: `thread_id` is updated to the calling thread on every
successful make-current with a non-none target drawable; the no-drawable
path leaves `thread_id` unchanged whether or not it succeeds — its
conclusion holds for an arbitrary environment `env2`, including ones where
the clear-drawable or set-current call fails. -/
theorem make_current_thread_update (env env2 : MakeCurrentEnv)
    (tid tid2 : Nat) (ac ac2 : AppleGlxContext) (d : Nat)
    (h : (apple_glx_make_current_context env tid ac (some d)).err = false) :
    (apple_glx_make_current_context env tid ac (some d)).ctx.thread_id = tid ∧
    (apple_glx_make_current_context env2 tid2 ac2 none).ctx.thread_id
      = ac2.thread_id := by
  constructor
  · rcases hd : ac.drawable with _ | old <;>
      rcases hf : env.find_result with _ | agd <;>
        rcases hcr : env.create_result with _ | agd2 <;>
          by_cases ha : env.attach_err = 0 <;>
            cases hs : env.set_current_err <;>
              simp_all [apple_glx_make_current_context,
                make_current_after_resolve]
  · cases hc : env2.clear_drawable_err <;>
      cases hs : env2.set_current_err <;>
        simp [apple_glx_make_current_context, hc, hs]

/-- C5: a make-current that switches a Bound context to a (non-none) target
drawable first releases the old drawable's reference — the first event of
the trace, before the drawable manager is consulted — releases it exactly
once, and has set `drawable` to NULL before resolving: if resolution fails
the context is left with no drawable attached. -/
theorem make_current_release_before_resolve (env : MakeCurrentEnv)
    (tid : Nat) (ac : AppleGlxContext) (d : Nat) (old : Drawable)
    (hb : ac.drawable = some old) :
    ((apple_glx_make_current_context env tid ac (some d)).trace.take 2 =
      [Event.releaseDrawable old, Event.findDrawable d]) ∧
    ((apple_glx_make_current_context env tid ac (some d)).trace.filter
        eventIsRelease = [Event.releaseDrawable old]) ∧
    (env.find_result = none → env.create_result = none →
      (apple_glx_make_current_context env tid ac (some d)).ctx.drawable
        = none) := by
  rcases hf : env.find_result with _ | agd <;>
    rcases hcr : env.create_result with _ | agd2 <;>
      by_cases ha : env.attach_err = 0 <;>
        cases hs : env.set_current_err <;>
          simp_all [apple_glx_make_current_context,
            make_current_after_resolve, eventIsRelease, hb]

/-- Witness for C5 at a concrete input. -/
theorem make_current_release_before_resolve_witness :
    ((apple_glx_make_current_context envOkMC 5 acBound (some 7)).trace.take 2
      = [Event.releaseDrawable agdW, Event.findDrawable 7]) ∧
    ((apple_glx_make_current_context envOkMC 5 acBound (some 7)).trace.filter
        eventIsRelease = [Event.releaseDrawable agdW]) ∧
    (envOkMC.find_result = none → envOkMC.create_result = none →
      (apple_glx_make_current_context envOkMC 5 acBound (some 7)).ctx.drawable
        = none) :=
  make_current_release_before_resolve envOkMC 5 acBound 7 agdW rfl

/-- C8: make-current with the same drawable on a context already Bound to
it performs the full release/find/attach/set-current cycle — the trace is
exactly that sequence, with no short-circuit — and doing it twice in a row
(all external calls succeeding) succeeds both times, repeats the identical
cycle, and leaves the context Bound to that same drawable. -/
theorem make_current_rebind (env : MakeCurrentEnv) (tid : Nat)
    (ac : AppleGlxContext) (d : Nat) (agd : Drawable)
    (_hdid : agd.drawable = d)
    (hfind : env.find_result = some agd)
    (hattach : env.attach_err = 0)
    (hset : env.set_current_err = false)
    (hb : ac.drawable = some agd) :
    (apple_glx_make_current_context env tid ac (some d)).err = false ∧
    (apple_glx_make_current_context env tid
        (apple_glx_make_current_context env tid ac (some d)).ctx
        (some d)).err = false ∧
    (apple_glx_make_current_context env tid
        (apple_glx_make_current_context env tid ac (some d)).ctx
        (some d)).ctx.drawable = some agd ∧
    (apple_glx_make_current_context env tid ac (some d)).trace =
      [Event.releaseDrawable agd, Event.findDrawable d,
       Event.xpAttachGlContext ac.context_obj agd.surface_id,
       Event.cglSetCurrentContext (some ac.context_obj)] ∧
    (apple_glx_make_current_context env tid
        (apple_glx_make_current_context env tid ac (some d)).ctx
        (some d)).trace =
      (apple_glx_make_current_context env tid ac (some d)).trace := by
  simp [apple_glx_make_current_context, make_current_after_resolve,
    hfind, hattach, hset, hb]

/-- Witness for C8 at a concrete input. -/
theorem make_current_rebind_witness :
    (apple_glx_make_current_context envOkMC 5 acBound (some 7)).err
      = false ∧
    (apple_glx_make_current_context envOkMC 5
        (apple_glx_make_current_context envOkMC 5 acBound (some 7)).ctx
        (some 7)).err = false ∧
    (apple_glx_make_current_context envOkMC 5
        (apple_glx_make_current_context envOkMC 5 acBound (some 7)).ctx
        (some 7)).ctx.drawable = some agdW ∧
    (apple_glx_make_current_context envOkMC 5 acBound (some 7)).trace =
      [Event.releaseDrawable agdW, Event.findDrawable 7,
       Event.xpAttachGlContext acBound.context_obj agdW.surface_id,
       Event.cglSetCurrentContext (some acBound.context_obj)] ∧
    (apple_glx_make_current_context envOkMC 5
        (apple_glx_make_current_context envOkMC 5 acBound (some 7)).ctx
        (some 7)).trace =
      (apple_glx_make_current_context envOkMC 5 acBound (some 7)).trace :=
  make_current_rebind envOkMC 5 acBound 7 agdW rfl rfl rfl rfl rfl

/-- C1: in every execution of `apple_glx_destroy_context` on a non-NULL
context, the registry unlink happens with the registry lock held and no
teardown call (drawable destroy, surface teardown, pixel-format destroy,
native-context destroy) ever happens with the lock held; unless the
initial set-current abort fires, the trace begins with
set-current, lock, unlink, unlock — the lock is released before any
teardown call is invoked. -/
theorem destroy_unlink_locked_teardown_unlocked (env : DestroyEnv)
    (reg : List AppleGlxContext) (ac : AppleGlxContext) :
    lockDiscipline (apple_glx_destroy_context env reg (some ac)).trace 0
      = true ∧
    (env.set_current_fail = true ∨
      (apple_glx_destroy_context env reg (some ac)).trace.take 4 =
        [Event.cglSetCurrentContext none, Event.lockList,
         Event.unlinkCtx ac.id, Event.unlockList]) := by
  rcases env with ⟨scf, cdf, ddl, dpf, dcf⟩
  rcases hd : ac.drawable with _ | dr <;>
    cases scf <;> cases cdf <;> cases ddl <;> cases dpf <;> cases dcf <;>
      simp [apple_glx_destroy_context, lockDiscipline, lockStep,
        eventIsTeardown, hd]

/-- C7: destroy invokes the window-system surface teardown exactly when the
context had an attached drawable, the drawable-destroy call ran, and it
reported the last reference released; the teardown receives the context's
screen and the drawable's X11 identifier, and happens at most once. -/
theorem destroy_surface_teardown_iff (env : DestroyEnv)
    (reg : List AppleGlxContext) (ac : AppleGlxContext) :
    ((∃ s x, Event.destroySurface s x ∈
        (apple_glx_destroy_context env reg (some ac)).trace) ↔
      (∃ dr, ac.drawable = some dr ∧
        Event.destroyDrawable dr ∈
          (apple_glx_destroy_context env reg (some ac)).trace ∧
        env.destroy_drawable_last = true)) ∧
    (∀ s x, Event.destroySurface s x ∈
        (apple_glx_destroy_context env reg (some ac)).trace →
      ∃ dr, ac.drawable = some dr ∧ s = ac.screen ∧ x = dr.drawable) ∧
    countSurfaceDestroys
        (apple_glx_destroy_context env reg (some ac)).trace ≤ 1 := by
  rcases env with ⟨scf, cdf, ddl, dpf, dcf⟩
  rcases hd : ac.drawable with _ | dr <;>
    cases scf <;> cases cdf <;> cases ddl <;> cases dpf <;> cases dcf <;>
      simp_all [apple_glx_destroy_context, countSurfaceDestroys]

/-- Witness for C7: applying the theorem at a concrete input shows the
all-success destroy of a context bound to `agdW` destroys the surface,
with the context's screen and the drawable's identifier. -/
theorem destroy_surface_teardown_iff_witness :
    ∃ s x, Event.destroySurface s x ∈
      (apple_glx_destroy_context envOkD [acBound] (some acBound)).trace :=
  (destroy_surface_teardown_iff envOkD [acBound] acBound).1.mpr
    ⟨agdW, rfl, by decide, rfl⟩

/-- Witness for the amended C4 at concrete inputs: the successful
some-drawable call records thread 5, and a no-drawable call that fails at
set-current (`envSetFail`) still leaves `thread_id` unchanged. -/
theorem make_current_thread_update_witness :
    (apple_glx_make_current_context envOkMC 5 acBound (some 7)).ctx.thread_id
      = 5 ∧
    (apple_glx_make_current_context envSetFail 6 acBound none).ctx.thread_id
      = acBound.thread_id :=
  make_current_thread_update envOkMC envSetFail 5 6 acBound acBound 7
    (by decide)



/-- The scan's result agrees with the spec-worded first-match lookup. -/
theorem get_surface_scan_fst (uid : Nat) (l : List AppleGlxContext) :
    (get_surface_scan uid l).1 = find_by_surface_owner l uid := by
  induction l with
  | nil => rfl
  | cons ac rest ih =>
    rcases hd : ac.drawable with _ | d
    · simp [get_surface_scan, find_by_surface_owner, List.findSome?_cons,
        hd, ih]
    · by_cases h : d.uid = uid
      · simp [get_surface_scan, find_by_surface_owner, List.findSome?_cons,
          hd, h]
      · simp [get_surface_scan, find_by_surface_owner, List.findSome?_cons,
          hd, h, ih]

/-- The scan returns not-found exactly when no context in the list has an
attached drawable with the given uid. -/
theorem get_surface_scan_none_iff (uid : Nat) (l : List AppleGlxContext) :
    (get_surface_scan uid l).1 = none ↔
      ∀ ac ∈ l, ∀ d, ac.drawable = some d → d.uid ≠ uid := by
  induction l with
  | nil => simp [get_surface_scan]
  | cons ac rest ih =>
    rcases hd : ac.drawable with _ | d
    · simp [get_surface_scan, hd, ih]
    · by_cases h : d.uid = uid
      · simp [get_surface_scan, hd, h]
      · simp [get_surface_scan, hd, h, ih]

/-- Every event emitted by the scan itself is a scan step. -/
theorem get_surface_scan_events (uid : Nat) (l : List AppleGlxContext) :
    ∀ e ∈ (get_surface_scan uid l).2, ∃ i, e = Event.scanCompare i := by
  induction l with
  | nil => simp [get_surface_scan]
  | cons ac rest ih =>
    intro e he
    rcases hd : ac.drawable with _ | d
    · rw [show get_surface_scan uid (ac :: rest) =
          ((get_surface_scan uid rest).1,
           Event.scanCompare ac.id :: (get_surface_scan uid rest).2) by
        simp [get_surface_scan, hd]] at he
      rcases List.mem_cons.mp he with rfl | hm
      · exact ⟨ac.id, rfl⟩
      · exact ih e hm
    · by_cases h : d.uid = uid
      · rw [show get_surface_scan uid (ac :: rest) =
            (some (d.surface_id, ac.context_obj),
             [Event.scanCompare ac.id]) by simp [get_surface_scan, hd, h]]
          at he
        rcases List.mem_cons.mp he with rfl | hm
        · exact ⟨ac.id, rfl⟩
        · simp at hm
      · rw [show get_surface_scan uid (ac :: rest) =
            ((get_surface_scan uid rest).1,
             Event.scanCompare ac.id :: (get_surface_scan uid rest).2) by
          simp [get_surface_scan, hd, h]] at he
        rcases List.mem_cons.mp he with rfl | hm
        · exact ⟨ac.id, rfl⟩
        · exact ih e hm

/-- C6: `apple_glx_get_surface_from_uid` returns the surface id and native
context of the first context whose attached drawable's uid matches,
agreeing with the spec's `find_by_surface_owner`; it reports not-found
exactly when no live context has an attached drawable with that uid; and
its trace is the lock, then nothing but scan steps, then the unlock as the
last event before returning — the entire scan runs under the registry
lock and the lock is released before the function returns. -/
theorem get_surface_from_uid_correct (reg : List AppleGlxContext)
    (uid : Nat) :
    (apple_glx_get_surface_from_uid reg uid).1
      = find_by_surface_owner reg uid ∧
    ((apple_glx_get_surface_from_uid reg uid).1 = none ↔
      ∀ ac ∈ reg, ∀ d, ac.drawable = some d → d.uid ≠ uid) ∧
    (∃ mid, (apple_glx_get_surface_from_uid reg uid).2 =
        Event.lockList :: (mid ++ [Event.unlockList]) ∧
      ∀ e ∈ mid, ∃ i, e = Event.scanCompare i) :=
  ⟨get_surface_scan_fst uid reg,
   get_surface_scan_none_iff uid reg,
   ⟨(get_surface_scan uid reg).2, rfl, get_surface_scan_events uid reg⟩⟩
